import Mathlib

/-!
Verification of the WuKongIM core against its natural-language specification.

Shallow embedding of three source files:
* `pkg/cluster/cluster/clusterconfig/node.go` — the config-consensus `Node`;
* `internal/server/channel_reactor_process.go` — the channel-reactor stage workers;
* `internal/reactor/channel/reactpr_sub.go` — the reactor shard loop.

Go slices are modelled as Lean lists with value semantics; Go `(T, error)`
returns are modelled as `Except Unit T` or as a `T × Bool` pair mirroring the
source's shape; a runtime panic (index out of range, `Panic` log call) is
modelled as `Option.none`.  External collaborators (store, cluster transport,
tag manager, connection registry) appear as function-valued parameters.
-/

namespace WuKongIM

/-! ### clusterconfig: data model (`node.go`) -/

inductive RoleType
  | follower
  | candidate
  | leader
deriving DecidableEq, Repr

inductive CMessageType
  | propose
  | hup
  | beat
  | appendConfig
  | appendConfigResp
  | voteRequest
  | voteResponse
  | sync
  | apply
  | heartbeat
  | heartbeatResp
deriving DecidableEq, Repr

/-- A config-consensus message: per the wire model, every message carries
`{type, from, to, term, configVersion}` and may carry `configData`. -/
structure CMessage where
  type : CMessageType
  fromNode : Nat
  toNode : Nat
  term : Nat
  configVersion : Nat
  configData : List Nat := []
deriving DecidableEq, Repr

structure COptions where
  nodeId : Nat
  electionTimeoutTick : Nat
  heartbeatTimeoutTick : Nat
  configVersion : Nat
deriving DecidableEq, Repr

/-- `State` of `node.go` (fields `leader`, `term`, `voteFor`); `term` is a
Go `uint32`, kept as a `Nat` reduced mod `2^32` where it is incremented. -/
structure CState where
  leader : Nat
  term : Nat
  voteFor : Nat
deriving DecidableEq, Repr

/-- The `Node` struct of `node.go`.  The Go function-pointer fields
`tickFnc`/`stepFnc` are determined by `role` and are represented by it. -/
structure CNode where
  opts : COptions
  state : CState
  leaderConfigVersion : Nat
  localConfigVersion : Nat
  committedConfigVersion : Nat
  appliedConfigVersion : Nat
  configData : List Nat
  role : RoleType
  votes : List (Nat × Bool)
  electionElapsed : Nat
  heartbeatElapsed : Nat
  randomizedElectionTimeout : Nat
  nodeConfigVersionMap : List (Nat × Nat)
  msgs : List CMessage
deriving DecidableEq, Repr

/-- The `Ready` struct of `node.go`. -/
structure CReady where
  Messages : List CMessage
deriving DecidableEq, Repr

/-- `None` node id of the consensus package. -/
def None : Nat := 0

def CNode.isLeader (n : CNode) : Bool :=
  n.role == RoleType.leader

/-- Modelled from the spec: the body of `newSync` is not under `src/`; per the
spec a non-leader requests newer config from the leader, and every message
carries `{type, from, to, term, configVersion}`.  The message content is not
load-bearing for the claims below; only its identity as a `sync` message is. -/
def CNode.newSync (n : CNode) : CMessage :=
  { type := CMessageType.sync
    fromNode := n.opts.nodeId
    toNode := n.state.leader
    term := n.state.term
    configVersion := n.localConfigVersion }

/-- Modelled from the spec: the body of `newApply` is not under `src/`; per the
spec it acknowledges a newly-committed version.  Only its identity as an
`apply` message matters for the claims below. -/
def CNode.newApply (n : CNode) : CMessage :=
  { type := CMessageType.apply
    fromNode := n.opts.nodeId
    toNode := n.opts.nodeId
    term := n.state.term
    configVersion := n.committedConfigVersion }

/-- `Node.HasReady` of `node.go` (lines 77–87). -/
def CNode.HasReady (n : CNode) : Bool :=
  if n.msgs.length > 0 then
    true
  else if !n.isLeader then
    if n.leaderConfigVersion != n.localConfigVersion then
      true
    else
      false
  else
    false

/-- `Node.Ready` of `node.go` (lines 89–103).  The Go method mutates `n.msgs`
(the staged sync is appended to the node's outbox, a distinct slice header from
the returned `rd.Messages`), so the embedding returns the `Ready` value
together with the updated node. -/
def CNode.Ready (n : CNode) : CReady × CNode :=
  let rd : CReady := { Messages := n.msgs }
  let n2 :=
    if !n.isLeader && (n.leaderConfigVersion != n.localConfigVersion) then
      { n with msgs := n.msgs ++ [n.newSync] }
    else
      n
  let rd2 :=
    if n2.committedConfigVersion > n2.appliedConfigVersion then
      { rd with Messages := rd.Messages ++ [n2.newApply] }
    else
      rd
  (rd2, n2)

/-- `Node.AcceptReady` of `node.go` (lines 105–107). -/
def CNode.AcceptReady (n : CNode) (_rd : CReady) : CNode :=
  { n with msgs := [] }

/-- `Node.reset` of `node.go` (lines 163–169).  `randV` models the value drawn
from `globalRand.Intn(ElectionTimeoutTick)`; `Intn n` yields a value in
`[0, n)`, represented as `randV % electionTimeoutTick`. -/
def CNode.reset (n : CNode) (term : Nat) (randV : Nat) : CNode :=
  { n with
    state := { n.state with term := term, voteFor := None }
    votes := []
    electionElapsed := 0
    randomizedElectionTimeout :=
      n.opts.electionTimeoutTick + randV % n.opts.electionTimeoutTick }

/-- `Node.becomeFollower` of `node.go` (lines 127–135). -/
def CNode.becomeFollower (n : CNode) (term : Nat) (leader : Nat)
    (randV : Nat) : CNode :=
  let n := n.reset term randV
  { n with
    state := { n.state with voteFor := leader, leader := leader }
    role := RoleType.follower }

/-- `Node.becomeCandidate` of `node.go` (lines 137–148); `none` models the
`Panic` abort on the forbidden `leader → candidate` transition.  The Go term
is a `uint32`, so the increment wraps mod `2^32`. -/
def CNode.becomeCandidate (n : CNode) (randV : Nat) : Option CNode :=
  if n.role = RoleType.leader then
    none
  else
    let n := n.reset ((n.state.term + 1) % 2 ^ 32) randV
    some { n with
      state := { n.state with voteFor := n.opts.nodeId, leader := None }
      role := RoleType.candidate }

/-- `Node.becomeLeader` of `node.go` (lines 150–161); `none` models the
`Panic` abort on the forbidden `follower → leader` transition. -/
def CNode.becomeLeader (n : CNode) (randV : Nat) : Option CNode :=
  if n.role = RoleType.follower then
    none
  else
    let n := n.reset n.state.term randV
    some { n with
      state := { n.state with leader := n.opts.nodeId }
      role := RoleType.leader }

/-! ### server: channel reactor stage workers (`channel_reactor_process.go`) -/

/-- The reactor `Reason` tag; `Reason.none` is the Go zero value taken by
actions that set no `Reason` field. -/
inductive Reason
  | none
  | success
  | error
deriving DecidableEq, Repr

/-- `wkproto.ReasonCode` values interpreted by the embedded code;
`ReasonCode.unknown` is the Go zero value. -/
inductive ReasonCode
  | unknown
  | success
  | systemError
  | ban
  | disband
  | inBlacklist
  | subscriberNotExist
  | notInWhitelist
deriving DecidableEq, Repr

inductive ChannelActionType
  | initResp
  | payloadDecryptResp
  | forwardResp
  | leaderChange
  | permissionCheckResp
  | storageResp
  | sendackResp
  | deliverResp
deriving DecidableEq, Repr

/-- `wkproto.ChannelTypePerson` (wire-protocol collaborator constant). -/
def channelTypePerson : Nat := 1

/-- `wkproto.ChannelTypeInfo` (wire-protocol collaborator constant). -/
def channelTypeInfo : Nat := 6

structure Framer where
  redDot : Bool
  syncOnce : Bool
  noPersist : Bool
deriving DecidableEq, Repr

/-- The fields of `wkproto.SendPacket` read by the embedded workers. -/
structure SendPacket where
  framer : Framer
  clientMsgNo : String
  clientSeq : Nat
  channelType : Nat
  expire : Nat
  payload : List Nat
deriving DecidableEq, Repr

/-- The fields of `ReactorChannelMessage` read and written by the embedded
workers: pipeline cursor `index`, sender identity, encryption flag, and the
post-storage `(messageId, messageSeq)` pair. -/
structure ReactorChannelMessage where
  index : Nat
  messageId : Int
  messageSeq : Nat
  fromUid : String
  fromDeviceId : String
  fromNodeId : Nat
  fromConnId : Int
  isEncrypt : Bool
  sendPacket : SendPacket
deriving DecidableEq, Repr

/-- Channel descriptor flags consulted by the permission check. -/
structure ChannelInfo where
  ban : Bool
  disband : Bool
deriving DecidableEq, Repr

/-- The fields of the server `channel` read by the embedded workers. -/
structure ServerChannel where
  channelId : String
  channelType : Nat
  uniqueNo : String
  key : String
  info : ChannelInfo
deriving DecidableEq, Repr

/-- A `ChannelAction` stepped back into the owning shard.  Field defaults are
the Go zero values of fields a given construction site leaves unset. -/
structure ChannelAction where
  uniqueNo : String := ""
  actionType : ChannelActionType
  index : Nat := 0
  reason : Reason := Reason.none
  reasonCode : ReasonCode := ReasonCode.unknown
  leaderId : Nat := 0
  messages : List ReactorChannelMessage := []
deriving DecidableEq, Repr

/-- The store lookups used by `hasPermission`; each models a Go
`(bool, error)` return. -/
structure Store where
  existDenylist : String → Nat → String → Except Unit Bool
  existSubscriber : String → Nat → String → Except Unit Bool
  hasAllowlist : String → Nat → Except Unit Bool
  existAllowlist : String → Nat → String → Except Unit Bool

/-- The server options consulted by the embedded workers. -/
structure SOptions where
  whitelistOffOfPerson : Bool
  systemUID : String
  nodeId : Nat
deriving DecidableEq, Repr

/-- `channelReactor.hasPermission` (lines 351–413).  Returns the Go pair
`(wkproto.ReasonCode, error)` with the error as a flag; `systemUID` stands for
`systemUIDManager.SystemUID`. -/
def hasPermission (opts : SOptions) (systemUID : String → Bool) (store : Store)
    (channelId : String) (channelType : Nat) (uid : String)
    (channelInfo : ChannelInfo) : ReasonCode × Bool :=
  if channelType == channelTypeInfo || channelType == channelTypePerson then
    (ReasonCode.success, false)
  else if systemUID uid then
    (ReasonCode.success, false)
  else if channelInfo.ban then
    (ReasonCode.ban, false)
  else if channelInfo.disband then
    (ReasonCode.disband, false)
  else
    match store.existDenylist channelId channelType uid with
    | Except.error _ => (ReasonCode.systemError, true)
    | Except.ok isDenylist =>
      if isDenylist then
        (ReasonCode.inBlacklist, false)
      else
        match store.existSubscriber channelId channelType uid with
        | Except.error _ => (ReasonCode.systemError, true)
        | Except.ok isSubscriber =>
          if !isSubscriber then
            (ReasonCode.subscriberNotExist, false)
          else
            if !opts.whitelistOffOfPerson || channelType != channelTypePerson then
              match store.hasAllowlist channelId channelType with
              | Except.error _ => (ReasonCode.systemError, true)
              | Except.ok hasAllow =>
                if hasAllow then
                  match store.existAllowlist channelId channelType uid with
                  | Except.error _ => (ReasonCode.systemError, true)
                  | Except.ok isAllow =>
                    if !isAllow then
                      (ReasonCode.notInWhitelist, false)
                    else
                      (ReasonCode.success, false)
                else
                  (ReasonCode.success, false)
            else
              (ReasonCode.success, false)

/-- The permission rules exactly as the specification words them, for the
refinement comparison with `hasPermission`: ordered short-circuits 1–8, where
rule 7 applies the allowlist "(channel not Person, or the Person allowlist
flag is on)", the flag being the negation of `WhitelistOffOfPerson`. -/
def hasPermissionSpec (opts : SOptions) (systemUID : String → Bool)
    (store : Store) (channelId : String) (channelType : Nat) (uid : String)
    (channelInfo : ChannelInfo) : ReasonCode × Bool :=
  if channelType == channelTypeInfo || channelType == channelTypePerson then
    (ReasonCode.success, false)
  else if systemUID uid then
    (ReasonCode.success, false)
  else if channelInfo.ban then
    (ReasonCode.ban, false)
  else if channelInfo.disband then
    (ReasonCode.disband, false)
  else
    match store.existDenylist channelId channelType uid with
    | Except.error _ => (ReasonCode.systemError, true)
    | Except.ok onDenylist =>
      if onDenylist then
        (ReasonCode.inBlacklist, false)
      else
        match store.existSubscriber channelId channelType uid with
        | Except.error _ => (ReasonCode.systemError, true)
        | Except.ok subscriber =>
          if !subscriber then
            (ReasonCode.subscriberNotExist, false)
          else
            if channelType != channelTypePerson || !opts.whitelistOffOfPerson then
              match store.hasAllowlist channelId channelType with
              | Except.error _ => (ReasonCode.systemError, true)
              | Except.ok anyEntry =>
                if anyEntry then
                  match store.existAllowlist channelId channelType uid with
                  | Except.error _ => (ReasonCode.systemError, true)
                  | Except.ok inAllowlist =>
                    if !inAllowlist then
                      (ReasonCode.notInWhitelist, false)
                    else
                      (ReasonCode.success, false)
                else
                  (ReasonCode.success, false)
            else
              (ReasonCode.success, false)

structure PermissionReq where
  fromUid : String
  ch : ServerChannel
  messages : List ReactorChannelMessage
deriving Repr

/-- `channelReactor.processPermission` (lines 319–349).  The result is the
`ChannelAction` stepped back into the shard; `none` models the runtime panic
on `req.messages[len(req.messages)-1]` when the message list is empty. -/
def processPermission (opts : SOptions) (systemUID : String → Bool)
    (store : Store) (req : PermissionReq) : Option ChannelAction :=
  let rc := hasPermission opts systemUID store req.ch.channelId
    req.ch.channelType req.fromUid req.ch.info
  if rc.2 then
    match req.messages.getLast? with
    | Option.none => none
    | Option.some lastMsg =>
      some { uniqueNo := req.ch.uniqueNo
             actionType := ChannelActionType.permissionCheckResp
             index := lastMsg.index
             reason := Reason.error }
  else
    let reason := if rc.1 != ReasonCode.success then Reason.error
      else Reason.success
    match req.messages.getLast? with
    | Option.none => none
    | Option.some lastMsg =>
      some { uniqueNo := req.ch.uniqueNo
             actionType := ChannelActionType.permissionCheckResp
             index := lastMsg.index
             reason := reason
             reasonCode := rc.1 }

/-! #### Storage stage -/

/-- The `wkdb.Message` fields populated by `processStorage` (the `RecvPacket`
with its `Framer` flattened). -/
structure WkdbMessage where
  redDot : Bool
  syncOnce : Bool
  noPersist : Bool
  messageID : Int
  clientMsgNo : String
  clientSeq : Nat
  fromUID : String
  channelID : String
  channelType : Nat
  expire : Nat
  timestamp : Int
  payload : List Nat
deriving DecidableEq, Repr

/-- The `wkdb.Message` literal built for one unencrypted message inside
`processStorage` (lines 478–496); `now` models `time.Now().Unix()`. -/
def toStoreMessage (now : Int) (channelId : String)
    (msg : ReactorChannelMessage) : WkdbMessage :=
  { redDot := msg.sendPacket.framer.redDot
    syncOnce := msg.sendPacket.framer.syncOnce
    noPersist := msg.sendPacket.framer.noPersist
    messageID := msg.messageId
    clientMsgNo := msg.sendPacket.clientMsgNo
    clientSeq := msg.sendPacket.clientSeq
    fromUID := msg.fromUid
    channelID := channelId
    channelType := msg.sendPacket.channelType
    expire := msg.sendPacket.expire
    timestamp := now
    payload := msg.sendPacket.payload }

/-- The `sotreMessages` accumulation loop of `processStorage`
(lines 472–497): encrypted messages are skipped with a warning, the rest are
converted and appended in order. -/
def buildStoreMessages (now : Int) (channelId : String) :
    List ReactorChannelMessage → List WkdbMessage
  | [] => []
  | msg :: rest =>
    if msg.isEncrypt then
      buildStoreMessages now channelId rest
    else
      toStoreMessage now channelId msg :: buildStoreMessages now channelId rest

/-- One per-message result of `store.AppendMessages`: the pair
`(int64(result.LogId()), uint32(result.LogIndex()))` as converted at the use
site. -/
structure AppendResult where
  logId : Int
  logIndex : Nat
deriving DecidableEq, Repr

/-- The inner copy-back scan of `processStorage` (lines 508–516): find the
first request message whose `MessageId` equals the result's log id, overwrite
its `(MessageId, MessageSeq)` with the result's `(logId, logIndex)`, and
`break`. -/
def applyResult : List ReactorChannelMessage → AppendResult →
    List ReactorChannelMessage
  | [], _ => []
  | msg :: rest, result =>
    if msg.messageId == result.logId then
      { msg with messageId := result.logId
                 messageSeq := result.logIndex } :: rest
    else
      msg :: applyResult rest result

/-- The outer copy-back loop of `processStorage` (lines 503–518) over all
append results. -/
def applyResults (messages : List ReactorChannelMessage)
    (results : List AppendResult) : List ReactorChannelMessage :=
  results.foldl applyResult messages

structure StorageReq where
  ch : ServerChannel
  messages : List ReactorChannelMessage
deriving Repr

/-- `store.AppendMessages` as seen by the worker: a Go
`([]AppendResult, error)` return. -/
structure StorageEnv where
  appendMessages : String → Nat → List WkdbMessage →
    List AppendResult × Bool

/-- The per-request body of `channelReactor.processStorage` (lines 470–535):
filter out encrypted messages, append the rest to the store, copy matching
`(logId, logIndex)` results back, and step a `StorageResp` carrying the last
message's index.  `none` models the runtime panic on
`req.messages[len(req.messages)-1]` when the message list is empty. -/
def processStorageOne (env : StorageEnv) (now : Int) (req : StorageReq) :
    Option ChannelAction :=
  let sotreMessages := buildStoreMessages now req.ch.channelId req.messages
  let r := env.appendMessages req.ch.channelId req.ch.channelType sotreMessages
  let messages := applyResults req.messages r.1
  let reason := if r.2 then Reason.error else Reason.success
  match messages.getLast? with
  | Option.none => none
  | Option.some lastMsg =>
    some { uniqueNo := req.ch.uniqueNo
           actionType := ChannelActionType.storageResp
           index := lastMsg.index
           reason := reason
           messages := messages }

/-- `channelReactor.processStorage` over its request list; a panic in any
request body aborts the worker. -/
def processStorage (env : StorageEnv) (now : Int) :
    List StorageReq → Option (List ChannelAction)
  | [] => some []
  | req :: rest =>
    match processStorageOne env now req with
    | Option.none => none
    | Option.some a => (processStorage env now rest).map (fun rs => a :: rs)

/-! #### Forward stage -/

/-- The interpreted inter-node RPC statuses; everything else is
`RpcStatus.other` (the spec treats the status as an opaque small integer with
only `OK` and `NotIsChannelLeader` interpreted). -/
inductive RpcStatus
  | ok
  | notIsChannelLeader
  | other (code : Nat)
deriving DecidableEq, Repr

structure RpcResponse where
  status : RpcStatus
  body : String
deriving DecidableEq, Repr

structure ChannelFowardReq where
  channelId : String
  channelType : Nat
  messages : List ReactorChannelMessage
deriving DecidableEq, Repr

/-- Observable external calls issued by the forward worker, each recording
its deadline in seconds. -/
inductive ForwardEffect
  | rpc (nodeId : Nat) (path : String) (req : ChannelFowardReq)
      (deadlineSec : Nat)
  | resolveLeaderId (channelId : String) (channelType : Nat)
      (deadlineSec : Nat)
  | resolveLeaderNode (channelId : String) (channelType : Nat)
      (deadlineSec : Nat)
deriving DecidableEq, Repr

/-- The cluster collaborators used by the forward worker. -/
structure ForwardEnv where
  nodeIsOnline : Nat → Bool
  leaderIdOfChannel : String → Nat → Except Unit Nat
  leaderOfChannel : String → Nat → Except Unit Nat
  request : Nat → ChannelFowardReq → Except Unit RpcResponse

structure ForwardReq where
  ch : ServerChannel
  leaderId : Nat
  messages : List ReactorChannelMessage
deriving Repr

/-- `channelReactor.requestChannelFoward` (lines 264–291): marshal the request
(modelled as total), issue the `/wk/channelFoward` RPC under a 5-second
deadline, and interpret the status.  Returns the Go pair
`(needChangeLeader, error)` with the error as a flag. -/
def requestChannelFoward (env : ForwardEnv) (nodeId : Nat)
    (req : ChannelFowardReq) : List ForwardEffect × (Bool × Bool) :=
  let effs := [ForwardEffect.rpc nodeId "/wk/channelFoward" req 5]
  match env.request nodeId req with
  | Except.error _ => (effs, (false, true))
  | Except.ok resp =>
    match resp.status with
    | RpcStatus.notIsChannelLeader => (effs, (true, false))
    | RpcStatus.ok => (effs, (false, false))
    | RpcStatus.other _ => (effs, (false, true))

/-- `channelReactor.handleForward` (lines 230–262).  Returns the Go pair
`(newLeaderId, error)` with the error as a flag. -/
def handleForward (env : ForwardEnv) (req : ForwardReq) :
    List ForwardEffect × (Nat × Bool) :=
  if req.messages.length == 0 then
    ([], (0, false))
  else if req.leaderId == 0 then
    ([], (0, true))
  else
    let r := requestChannelFoward env req.leaderId
      { channelId := req.ch.channelId
        channelType := req.ch.channelType
        messages := req.messages }
    if r.2.2 then
      (r.1, (0, true))
    else if r.2.1 then
      let effs := r.1 ++
        [ForwardEffect.resolveLeaderNode req.ch.channelId req.ch.channelType 5]
      match env.leaderOfChannel req.ch.channelId req.ch.channelType with
      | Except.error _ => (effs, (0, true))
      | Except.ok nodeId => (effs, (nodeId, true))
    else
      (r.1, (0, false))

/-- The per-request body of `channelReactor.processForward` (lines 182–228):
when the recorded leader is offline, skip the RPC and re-resolve via
`LeaderIdOfChannel` under a 1-second deadline (a successful re-resolution sets
the error to "leader change"); otherwise run `handleForward`.  A positive
`newLeaderId` steps a `LeaderChange` action, and the request is always
answered with a `ForwardResp`. -/
def processForwardOne (env : ForwardEnv) (req : ForwardReq) :
    List ForwardEffect × List ChannelAction :=
  let step1 : List ForwardEffect × (Nat × Bool) :=
    if !env.nodeIsOnline req.leaderId then
      let effs :=
        [ForwardEffect.resolveLeaderId req.ch.channelId req.ch.channelType 1]
      match env.leaderIdOfChannel req.ch.channelId req.ch.channelType with
      | Except.error _ => (effs, (0, true))
      | Except.ok newLeaderId => (effs, (newLeaderId, true))
    else
      handleForward env req
  let newLeaderId := step1.2.1
  let reason := if step1.2.2 then Reason.error else Reason.success
  let leaderChangeActions : List ChannelAction :=
    if newLeaderId > 0 then
      [{ uniqueNo := req.ch.uniqueNo
         actionType := ChannelActionType.leaderChange
         leaderId := newLeaderId }]
    else
      []
  (step1.1,
    leaderChangeActions ++
      [{ uniqueNo := req.ch.uniqueNo
         actionType := ChannelActionType.forwardResp
         messages := req.messages
         reason := reason }])

/-- `channelReactor.processForward` over its request list. -/
def processForward (env : ForwardEnv) :
    List ForwardReq → List ForwardEffect × List ChannelAction
  | [] => ([], [])
  | req :: rest =>
    let r := processForwardOne env req
    let rs := processForward env rest
    (r.1 ++ rs.1, r.2 ++ rs.2)

/-! #### Sendack stage -/

structure SendackPacket where
  framer : Framer
  messageID : Int
  messageSeq : Nat
  clientSeq : Nat
  clientMsgNo : String
  reasonCode : ReasonCode
deriving DecidableEq, Repr

structure ForwardSendackPacket where
  uid : String
  deviceId : String
  sendack : SendackPacket
deriving DecidableEq, Repr

/-- Observable external calls issued by the sendack worker. -/
inductive SendackEffect
  | writeLocal (uid : String) (connId : Int) (packet : SendackPacket)
  | forwardRpc (nodeId : Nat) (packets : List ForwardSendackPacket)
      (deadlineSec : Nat)
deriving DecidableEq, Repr

structure SendackReq where
  ch : ServerChannel
  messages : List ReactorChannelMessage
deriving Repr

/-- `nodeFowardSendackPacketMap` as an association list keyed by node id in
first-insertion order (the claims below do not depend on Go's unspecified map
iteration order). -/
def mapSet : List (Nat × List ForwardSendackPacket) → Nat →
    List ForwardSendackPacket → List (Nat × List ForwardSendackPacket)
  | [], k, v => [(k, v)]
  | (k0, v0) :: rest, k, v =>
    if k0 == k then (k0, v) :: rest else (k0, v0) :: mapSet rest k v

def mapGet (m : List (Nat × List ForwardSendackPacket)) (k : Nat) :
    List ForwardSendackPacket :=
  (m.lookup k).getD []

/-- The per-message loop of `processSendack` (lines 584–612): skip system
messages, synthesize the sendack packet, write it locally when the sender's
connection is on this node, else bucket it by the sender's node. -/
def processSendackMsgs (opts : SOptions)
    (msgs : List ReactorChannelMessage)
    (state : List SendackEffect × List (Nat × List ForwardSendackPacket)) :
    List SendackEffect × List (Nat × List ForwardSendackPacket) :=
  msgs.foldl (fun st msg =>
    if msg.fromUid == opts.systemUID then
      st
    else
      let sendack : SendackPacket :=
        { framer := msg.sendPacket.framer
          messageID := msg.messageId
          messageSeq := msg.messageSeq
          clientSeq := msg.sendPacket.clientSeq
          clientMsgNo := msg.sendPacket.clientMsgNo
          reasonCode := ReasonCode.success }
      if msg.fromNodeId == opts.nodeId then
        (st.1 ++ [SendackEffect.writeLocal msg.fromUid msg.fromConnId sendack],
          st.2)
      else
        (st.1,
          mapSet st.2 msg.fromNodeId
            (mapGet st.2 msg.fromNodeId ++
              [{ uid := msg.fromUid
                 deviceId := msg.fromDeviceId
                 sendack := sendack }]))) state

/-- The per-request loop of `channelReactor.processSendack` (lines 580–621),
threading the cross-request forward map and stepping one `SendackResp` per
request.  `none` models the runtime panic on
`req.messages[len(req.messages)-1]` when a request's message list is empty. -/
def processSendackLoop (opts : SOptions) :
    List SendackReq →
    List SendackEffect × List (Nat × List ForwardSendackPacket) →
    Option (List SendackEffect × List (Nat × List ForwardSendackPacket) ×
      List ChannelAction)
  | [], state => some (state.1, state.2, [])
  | req :: rest, state =>
    let state2 := processSendackMsgs opts req.messages state
    match req.messages.getLast? with
    | Option.none => none
    | Option.some lastMsg =>
      (processSendackLoop opts rest state2).map (fun r =>
        (r.1, r.2.1,
          { uniqueNo := req.ch.uniqueNo
            actionType := ChannelActionType.sendackResp
            index := lastMsg.index
            reason := Reason.success } :: r.2.2))

/-- `channelReactor.processSendack` (lines 580–629): after the request loop,
one `/wk/forwardSendack` RPC per bucketed remote node under a 5-second
deadline (`requestForwardSendack`, whose result is only logged). -/
def processSendack (opts : SOptions) (reqs : List SendackReq) :
    Option (List SendackEffect × List ChannelAction) :=
  match processSendackLoop opts reqs ([], []) with
  | Option.none => none
  | Option.some r =>
    some (r.1 ++ r.2.1.map (fun kv =>
      SendackEffect.forwardRpc kv.1 kv.2 5), r.2.2)

/-! #### Deliver stage -/

structure DeliverReq where
  ch : ServerChannel
  channelId : String
  channelType : Nat
  channelKey : String
  tagKey : String
  messages : List ReactorChannelMessage
deriving Repr

/-- The per-request body of `channelReactor.processDeliver` (lines 707–721):
hand the request to `deliverManager.deliver` (best-effort, no observable
return), then step a `DeliverResp{Success}`.  `none` models the runtime
panic on `req.messages[len(req.messages)-1]` when the message list is empty;
the deliver hand-off has already happened by that point. -/
def processDeliverOne (req : DeliverReq) : Option ChannelAction :=
  match req.messages.getLast? with
  | Option.none => none
  | Option.some lastMsg =>
    some { uniqueNo := req.ch.uniqueNo
           actionType := ChannelActionType.deliverResp
           index := lastMsg.index
           reason := Reason.success }

/-- `channelReactor.processDeliver` over its request list. -/
def processDeliver : List DeliverReq → Option (List ChannelAction)
  | [] => some []
  | req :: rest =>
    match processDeliverOne req with
    | Option.none => none
    | Option.some a => (processDeliver rest).map (fun rs => a :: rs)

/-! ### reactor shard loop (`reactpr_sub.go`) -/

/-- The fields of the reactor `Channel` consulted when applying a received
action: its registry key and its incarnation number `no`. -/
structure RChannel where
  key : String × Nat
  no : String
deriving DecidableEq, Repr

/-- The fields of `reactor.ChannelAction` consulted by
`handleReceivedActions`: the addressed channel and the incarnation number
`No` the action carries. -/
structure RAction where
  channelId : String
  channelType : Nat
  no : String
deriving DecidableEq, Repr

/-- `wkutil.ChannelToKey` modelled as the pair itself: an injective canonical
key for `(channelId, channelType)` (the Go helper renders it as a string). -/
def wkutilChannelToKey (channelId : String) (channelType : Nat) :
    String × Nat :=
  (channelId, channelType)

/-- The per-action body of `reactorSub.handleReceivedActions`: look the
channel up by key (skip unknown channels), drop the action when it carries a
non-empty `No` different from the channel's, and otherwise append the
`channel.step` invocation to the trace. -/
def applyReceivedAction (channels : List RChannel)
    (acc : List (RChannel × RAction)) (a : RAction) :
    List (RChannel × RAction) :=
  match channels.find? (fun c =>
      c.key == wkutilChannelToKey a.channelId a.channelType) with
  | Option.none => acc
  | Option.some user =>
    if a.no != "" && a.no != user.no then
      acc
    else
      acc ++ [(user, a)]

/-- `reactorSub.handleReceivedActions` (lines 137–154): drain the queued
actions and apply each in order.  The result is the ordered trace of
`channel.step` invocations plus the Go boolean return (whether any action was
drained). -/
def handleReceivedActions (channels : List RChannel)
    (actions : List RAction) : List (RChannel × RAction) × Bool :=
  if actions.length == 0 then
    ([], false)
  else
    (actions.foldl (applyReceivedAction channels) [], true)

/-! ### Concrete instances used by witnesses and counterexamples -/

def cOpts0 : COptions :=
  { nodeId := 1, electionTimeoutTick := 10, heartbeatTimeoutTick := 1
    configVersion := 0 }

/-- A follower with an empty outbox, equal leader/local versions, and a
committed version ahead of the applied one (the version counters respect
`applied ≤ committed ≤ local`). -/
def cNodeC1 : CNode :=
  { opts := cOpts0, state := { leader := 2, term := 1, voteFor := 0 }
    leaderConfigVersion := 3, localConfigVersion := 3
    committedConfigVersion := 2, appliedConfigVersion := 0
    configData := [], role := RoleType.follower, votes := []
    electionElapsed := 0, heartbeatElapsed := 0
    randomizedElectionTimeout := 10, nodeConfigVersionMap := [], msgs := [] }

/-- A follower with an empty outbox whose leader version differs from its
local version. -/
def cNodeC2 : CNode :=
  { opts := cOpts0, state := { leader := 2, term := 1, voteFor := 0 }
    leaderConfigVersion := 7, localConfigVersion := 3
    committedConfigVersion := 0, appliedConfigVersion := 0
    configData := [], role := RoleType.follower, votes := []
    electionElapsed := 0, heartbeatElapsed := 0
    randomizedElectionTimeout := 10, nodeConfigVersionMap := [], msgs := [] }

def sPacket0 : SendPacket :=
  { framer := { redDot := false, syncOnce := false, noPersist := false }
    clientMsgNo := "m1", clientSeq := 1, channelType := 2, expire := 0
    payload := [1, 2] }

def rcMsg0 : ReactorChannelMessage :=
  { index := 7, messageId := 5, messageSeq := 0, fromUid := "u1"
    fromDeviceId := "d1", fromNodeId := 2, fromConnId := 3
    isEncrypt := false, sendPacket := sPacket0 }

def sOpts0 : SOptions :=
  { whitelistOffOfPerson := false, systemUID := "sys", nodeId := 1 }

/-- A store whose every lookup succeeds benignly. -/
def storeOk : Store :=
  { existDenylist := fun _ _ _ => Except.ok false
    existSubscriber := fun _ _ _ => Except.ok true
    hasAllowlist := fun _ _ => Except.ok false
    existAllowlist := fun _ _ _ => Except.ok false }

/-- A store whose every lookup fails. -/
def storeFail : Store :=
  { existDenylist := fun _ _ _ => Except.error ()
    existSubscriber := fun _ _ _ => Except.error ()
    hasAllowlist := fun _ _ => Except.error ()
    existAllowlist := fun _ _ _ => Except.error () }

def suNobody : String → Bool := fun _ => false

/-- A banned group channel. -/
def chBanned : ServerChannel :=
  { channelId := "g1", channelType := 2, uniqueNo := "no1", key := "k1"
    info := { ban := true, disband := false } }

/-- An ordinary group channel. -/
def chPlain : ServerChannel :=
  { channelId := "g2", channelType := 2, uniqueNo := "no2", key := "k2"
    info := { ban := false, disband := false } }

def permReqBanned : PermissionReq :=
  { fromUid := "u1", ch := chBanned, messages := [rcMsg0] }

/-- A forward environment whose recorded leader is offline and whose fast
re-resolution fails. -/
def fwdEnvOffFail : ForwardEnv :=
  { nodeIsOnline := fun _ => false
    leaderIdOfChannel := fun _ _ => Except.error ()
    leaderOfChannel := fun _ _ => Except.error ()
    request := fun _ _ => Except.error () }

/-- A forward environment whose recorded leader is offline and whose fast
re-resolution yields the unknown node id 0. -/
def fwdEnvOffZero : ForwardEnv :=
  { nodeIsOnline := fun _ => false
    leaderIdOfChannel := fun _ _ => Except.ok 0
    leaderOfChannel := fun _ _ => Except.error ()
    request := fun _ _ => Except.error () }

/-- A forward environment whose recorded leader is offline and whose fast
re-resolution yields node 4. -/
def fwdEnvOffOk : ForwardEnv :=
  { nodeIsOnline := fun _ => false
    leaderIdOfChannel := fun _ _ => Except.ok 4
    leaderOfChannel := fun _ _ => Except.error ()
    request := fun _ _ => Except.error () }

def fwdReq0 : ForwardReq :=
  { ch := chPlain, leaderId := 9, messages := [rcMsg0] }

def chansC5 : List RChannel := [{ key := ("c", 2), no := "abc" }]

/-- An action carrying an empty incarnation number for channel `("c", 2)`. -/
def actEmptyNo : RAction := { channelId := "c", channelType := 2, no := "" }

/-- An action carrying the current incarnation number of `("c", 2)`. -/
def actLiveNo : RAction := { channelId := "c", channelType := 2, no := "abc" }

/-! ## Claim theorems -/

/-! ### The config-consensus node: claims C1, C2, C9 -/

/-- **C1** (counterexample): a `ConfigNode` whose staged outbox is empty and
whose leader/local versions agree, but whose `committedConfigVersion` exceeds
its `appliedConfigVersion`, and on which `HasReady()` nevertheless returns
`false` — refuting the claim that `HasReady()` returns true whenever
`committedConfigVersion > appliedConfigVersion`. -/
theorem C1_counterexample :
    cNodeC1.appliedConfigVersion < cNodeC1.committedConfigVersion ∧
    cNodeC1.msgs = [] ∧
    cNodeC1.HasReady = false := by decide

/-- **C1** (amended): for every `ConfigNode` state, `HasReady()` returns true
exactly when the staged outbox is non-empty or the node is not leader and
`leaderConfigVersion` differs from `localConfigVersion`; the
committed/applied version pair plays no part. -/
theorem C1_hasReady_iff (n : CNode) :
    n.HasReady = true ↔
      n.msgs ≠ [] ∨
        (n.role ≠ RoleType.leader ∧
          n.leaderConfigVersion ≠ n.localConfigVersion) := by
  unfold CNode.HasReady CNode.isLeader
  cases hm : n.msgs <;> cases hr : n.role <;> simp_all

/-- **C2** (counterexample): a non-leader `ConfigNode` whose leader version
differs from its local version, for which the `Ready` value returned by
`Ready()` is nevertheless empty — refuting the claim that the returned value
contains a fresh `Sync` message in that case (the sync is staged into the
node's outbox instead). -/
theorem C2_counterexample :
    cNodeC2.isLeader = false ∧
    cNodeC2.leaderConfigVersion ≠ cNodeC2.localConfigVersion ∧
    (cNodeC2.Ready).1.Messages = [] := by decide

/-- **C2** (amended): for every `ConfigNode` state, the `Ready` value
returned by `Ready()` contains the currently staged outbox in order plus,
when `committedConfigVersion` exceeds `appliedConfigVersion`, an `Apply`
message; the fresh `Sync` message produced when the node is not leader and
the versions differ is appended to the node's outbox (surfacing only in a
later `Ready()`), not included in the returned value. -/
theorem C2_ready_characterization (n : CNode) :
    (n.Ready).1.Messages =
      n.msgs ++
        (if n.committedConfigVersion > n.appliedConfigVersion then
          [n.newApply] else []) ∧
    (n.Ready).2.msgs =
      n.msgs ++
        (if !n.isLeader && (n.leaderConfigVersion != n.localConfigVersion)
          then [n.newSync] else []) := by
  unfold CNode.Ready
  constructor <;> dsimp only <;> split <;> simp [CNode.newApply] <;>
    split <;> simp

/-- **C9**: `becomeLeader` aborts the process (`Panic`, modelled as `none`)
exactly when the starting role is `Follower`, and `becomeCandidate` aborts
exactly when the starting role is `Leader`; from every other starting role
each transition completes normally. -/
theorem C9_forbidden_transitions (n : CNode) (randV : Nat) :
    (n.becomeLeader randV = none ↔ n.role = RoleType.follower) ∧
    (n.becomeCandidate randV = none ↔ n.role = RoleType.leader) := by
  unfold CNode.becomeLeader CNode.becomeCandidate
  constructor <;> split <;> simp_all

/-! ### The permission stage: claims C3, C4 -/

/-- **C3**: `hasPermission` resolves the sender's permission by the fixed
ordered short-circuits of the specification (`hasPermissionSpec`), and when
the channel type is Info or Person or the uid is a configured system uid the
result does not depend on the store at all. -/
theorem C3_hasPermission_order (opts : SOptions) (systemUID : String → Bool)
    (store : Store) (channelId : String) (channelType : Nat) (uid : String)
    (channelInfo : ChannelInfo) :
    hasPermission opts systemUID store channelId channelType uid
        channelInfo =
      hasPermissionSpec opts systemUID store channelId channelType uid
        channelInfo ∧
    (∀ store2 : Store,
      channelType = channelTypeInfo ∨ channelType = channelTypePerson ∨
          systemUID uid = true →
        hasPermission opts systemUID store channelId channelType uid
            channelInfo =
          hasPermission opts systemUID store2 channelId channelType uid
            channelInfo) := by
  constructor
  · simp only [hasPermission, hasPermissionSpec,
      Bool.or_comm (!opts.whitelistOffOfPerson)]
  · intro store2 h
    rcases h with h | h | h
    · simp [hasPermission, h]
    · simp [hasPermission, h]
    · by_cases hct :
        (channelType == channelTypeInfo || channelType == channelTypePerson)
          = true
      · simp [hasPermission, hct]
      · simp [hasPermission, hct, h]

/-- **C3** (witness): for an Info channel the permission result is the same
under a store that answers every lookup and a store that fails every
lookup. -/
theorem C3_witness :
    hasPermission sOpts0 suNobody storeOk "g1" channelTypeInfo "u1"
        { ban := false, disband := false } =
      hasPermission sOpts0 suNobody storeFail "g1" channelTypeInfo "u1"
        { ban := false, disband := false } :=
  (C3_hasPermission_order sOpts0 suNobody storeOk "g1" channelTypeInfo "u1"
    { ban := false, disband := false }).2 storeFail (Or.inl rfl)

/-- **C4** (counterexample): a permission check that completes without a
store error and yields the denial code `Ban` produces a
`PermissionCheckResp` action tagged `Reason = Error`, not as a terminal
success — refuting the claim that the denial response is tagged as a
success. -/
theorem C4_counterexample :
    hasPermission sOpts0 suNobody storeOk permReqBanned.ch.channelId
        permReqBanned.ch.channelType permReqBanned.fromUid
        permReqBanned.ch.info = (ReasonCode.ban, false) ∧
    (processPermission sOpts0 suNobody storeOk permReqBanned).map
        (fun a => (a.reasonCode, a.reason)) =
      some (ReasonCode.ban, Reason.error) := by decide

/-- **C4** (amended): for every permission request whose check completes
without a store error but yields a denial reason code, the
`PermissionCheckResp` action injected back into the shard carries that
`ReasonCode` but is tagged `Reason = Error` (like the store-error path), not
as a success. -/
theorem C4_denial_resp (opts : SOptions) (systemUID : String → Bool)
    (store : Store) (req : PermissionReq) (code : ReasonCode)
    (lastMsg : ReactorChannelMessage)
    (hperm : hasPermission opts systemUID store req.ch.channelId
        req.ch.channelType req.fromUid req.ch.info = (code, false))
    (hcode : code ≠ ReasonCode.success)
    (hlast : req.messages.getLast? = some lastMsg) :
    processPermission opts systemUID store req =
      some { uniqueNo := req.ch.uniqueNo
             actionType := ChannelActionType.permissionCheckResp
             index := lastMsg.index
             reason := Reason.error
             reasonCode := code } := by
  unfold processPermission
  rw [hperm]
  have hbne : (code != ReasonCode.success) = true := by
    simpa using hcode
  simp [hlast, hbne]

/-- **C4** (witness): the banned-sender request yields the `Ban` code with
`Reason = Error`. -/
theorem C4_witness :
    processPermission sOpts0 suNobody storeOk permReqBanned =
      some { uniqueNo := "no1"
             actionType := ChannelActionType.permissionCheckResp
             index := 7
             reason := Reason.error
             reasonCode := ReasonCode.ban } :=
  C4_denial_resp sOpts0 suNobody storeOk permReqBanned ReasonCode.ban rcMsg0
    (by decide) (by decide) (by decide)

/-! ### The shard action filter: claim C5 -/

/-- Every `step` invocation recorded by the action fold either was already in
the accumulator or satisfies the incarnation filter: the action's `No` is
empty or equals the channel's. -/
theorem applyReceivedAction_foldl_mem (channels : List RChannel) :
    ∀ (actions : List RAction) (acc : List (RChannel × RAction))
      (p : RChannel × RAction),
      p ∈ actions.foldl (applyReceivedAction channels) acc →
      p ∈ acc ∨ p.2.no = "" ∨ p.2.no = p.1.no := by
  intro actions
  induction actions with
  | nil => intro acc p h; exact Or.inl h
  | cons a rest ih =>
    intro acc p h
    rcases ih (applyReceivedAction channels acc a) p h with h2 | h2
    · unfold applyReceivedAction at h2
      split at h2
      · exact Or.inl h2
      · split at h2
        · exact Or.inl h2
        · rename_i user _ hcond
          rcases List.mem_append.mp h2 with h3 | h3
          · exact Or.inl h3
          · have hp : p = (user, a) := by simpa using h3
            subst hp
            right
            rcases Bool.and_eq_false_iff.mp
                (Bool.of_not_eq_true hcond) with h4 | h4
            · left; simpa using h4
            · right; simpa using h4
    · exact Or.inr h2

/-- **C5** (counterexample): the registry channel for `("c", 2)` has
incarnation number `"abc"`; an action carrying the differing (empty)
incarnation number is nevertheless stepped into the channel — refuting the
claim that every action whose `uniqueNo` differs from the channel's is
discarded without invoking `channel.step`. -/
theorem C5_counterexample :
    actEmptyNo.no ≠ "abc" ∧
    (handleReceivedActions chansC5 [actEmptyNo]).1 =
      [({ key := ("c", 2), no := "abc" }, actEmptyNo)] := by decide

/-- **C5** (amended): for every action drained from the shard queue that
reaches `channel.step`, the action's `uniqueNo` is either empty (a wildcard
that bypasses the filter) or equal to the channel's current `uniqueNo`;
hence an action bearing a non-empty stale `uniqueNo` never mutates channel
state. -/
theorem C5_stale_unique_no (channels : List RChannel)
    (actions : List RAction) (ch : RChannel) (a : RAction)
    (hmem : (ch, a) ∈ (handleReceivedActions channels actions).1) :
    a.no = "" ∨ a.no = ch.no := by
  unfold handleReceivedActions at hmem
  split at hmem
  · simp at hmem
  · rcases applyReceivedAction_foldl_mem channels actions [] (ch, a) hmem
      with h | h
    · simp at h
    · exact h

/-- **C5** (witness): an action carrying the live incarnation number is
stepped and satisfies the filter relation. -/
theorem C5_witness :
    actLiveNo.no = "" ∨ actLiveNo.no = "abc" :=
  C5_stale_unique_no chansC5 [actLiveNo] { key := ("c", 2), no := "abc" }
    actLiveNo (by decide)

/-! ### The storage stage: claims C6, C7 -/

theorem applyResult_get (msgs : List ReactorChannelMessage)
    (r : AppendResult) (i : Nat) :
    (applyResult msgs r)[i]? = msgs[i]? ∨
      ∃ m, msgs[i]? = some m ∧ m.messageId = r.logId ∧
        (applyResult msgs r)[i]? =
          some { m with messageSeq := r.logIndex } := by
  induction msgs generalizing i with
  | nil => left; rfl
  | cons m rest ih =>
    unfold applyResult
    split
    · rename_i hm
      have hid : m.messageId = r.logId := by simpa using hm
      cases i with
      | zero =>
        right
        refine ⟨m, by simp, hid, ?_⟩
        cases m
        simp_all
      | succ j => left; rfl
    · cases i with
      | zero => left; simp
      | succ j => simpa using ih j

theorem applyResults_get (msgs : List ReactorChannelMessage)
    (results : List AppendResult) (i : Nat) :
    (applyResults msgs results)[i]? = msgs[i]? ∨
      ∃ r ∈ results, ∃ m, msgs[i]? = some m ∧ m.messageId = r.logId ∧
        (applyResults msgs results)[i]? =
          some { m with messageSeq := r.logIndex } := by
  induction results generalizing msgs with
  | nil => left; rfl
  | cons r rest ih =>
    have hstep : applyResults msgs (r :: rest) =
        applyResults (applyResult msgs r) rest := rfl
    rw [hstep]
    rcases ih (applyResult msgs r) with h2 | ⟨r2, hr2, m2, hm2, hid2, hout2⟩
    · rw [h2]
      rcases applyResult_get msgs r i with h1 | ⟨m, hm, hid, hout⟩
      · left; exact h1
      · right
        exact ⟨r, List.mem_cons_self r rest, m, hm, hid, hout⟩
    · rcases applyResult_get msgs r i with h1 | ⟨m, hm, hid, hout⟩
      · right
        refine ⟨r2, List.mem_cons_of_mem r hr2, m2, ?_, hid2, hout2⟩
        rw [← h1]; exact hm2
      · right
        rw [hout] at hm2
        have hm2' : m2 = { m with messageSeq := r.logIndex } := by
          simpa using hm2.symm
        refine ⟨r2, List.mem_cons_of_mem r hr2, m, hm, ?_, ?_⟩
        · rw [← hid2, hm2']
        · rw [hout2, hm2']

/-- **C6**: after `store.AppendMessages` returns its per-message results, a
request message is overwritten only when its `MessageId` equals some result's
`logId`, and then only with that result's `(logId, logIndex)` pair — the
`MessageId` is rewritten with the equal `logId` and the `MessageSeq` with the
`logIndex`; every message matching no result is left unchanged. -/
theorem C6_storage_copy_back (msgs : List ReactorChannelMessage)
    (results : List AppendResult) (i : Nat) :
    ((applyResults msgs results)[i]? ≠ msgs[i]? →
      ∃ r ∈ results, ∃ m, msgs[i]? = some m ∧ m.messageId = r.logId ∧
        (applyResults msgs results)[i]? =
          some { m with messageSeq := r.logIndex }) ∧
    ((∀ r ∈ results, ∀ m, msgs[i]? = some m → m.messageId ≠ r.logId) →
      (applyResults msgs results)[i]? = msgs[i]?) := by
  constructor
  · intro hch
    rcases applyResults_get msgs results i with h | h
    · exact absurd h hch
    · exact h
  · intro hno
    rcases applyResults_get msgs results i with h | ⟨r, hr, m, hm, hid, _⟩
    · exact h
    · exact absurd hid (hno r hr m hm)

/-- **C6** (witness): a message with caller-assigned id 5 receives the store
sequence 42 of the result with log id 5. -/
theorem C6_witness :
    ∃ r ∈ [({ logId := 5, logIndex := 42 } : AppendResult)],
      ∃ m, [rcMsg0][0]? = some m ∧ m.messageId = r.logId ∧
        (applyResults [rcMsg0]
            [({ logId := 5, logIndex := 42 } : AppendResult)])[0]? =
          some { m with messageSeq := r.logIndex } :=
  (C6_storage_copy_back [rcMsg0] [{ logId := 5, logIndex := 42 }] 0).1
    (by decide)

/-- **C7**: the message list passed to `store.AppendMessages` is exactly the
request's messages whose `IsEncrypt` flag is false, in their original order,
each converted to its `wkdb.Message`; a message still encrypted is never
persisted. -/
theorem C7_storage_encrypt_filter (now : Int) (channelId : String)
    (msgs : List ReactorChannelMessage) :
    buildStoreMessages now channelId msgs =
      (msgs.filter (fun m => !m.isEncrypt)).map
        (toStoreMessage now channelId) := by
  induction msgs with
  | nil => rfl
  | cons m rest ih =>
    unfold buildStoreMessages
    by_cases hm : m.isEncrypt = true <;>
      simp [hm, List.filter_cons, ih]

/-! ### The forward stage: claim C8 -/

/-- **C8** (counterexample): with the recorded leader offline and the fast
re-resolution returning the unknown node id 0, `processForward` emits no
`LeaderChange` action at all — refuting the claim that every offline-leader
request yields a `LeaderChange` action carrying the re-resolved leader id. -/
theorem C8_counterexample :
    fwdEnvOffZero.nodeIsOnline fwdReq0.leaderId = false ∧
    fwdEnvOffZero.leaderIdOfChannel fwdReq0.ch.channelId
        fwdReq0.ch.channelType = Except.ok 0 ∧
    ((processForwardOne fwdEnvOffZero fwdReq0).2.all
      (fun a => a.actionType != ChannelActionType.leaderChange)) = true :=
  ⟨rfl, rfl, rfl⟩

/-- **C8** (amended): for every forward request whose recorded leader is
reported offline, `processForward` issues no `/wk/channelFoward` RPC — its
only external call is the `LeaderIdOfChannel` re-resolution under a 1-second
deadline — and answers the request with a `ForwardResp` action whose
`Reason` is `Error`; a `LeaderChange` action carrying the re-resolved leader
id is emitted when (and only when) the re-resolution succeeds with a nonzero
id. -/
theorem C8_forward_offline (env : ForwardEnv) (req : ForwardReq)
    (hoff : env.nodeIsOnline req.leaderId = false) :
    (processForwardOne env req).1 =
      [ForwardEffect.resolveLeaderId req.ch.channelId req.ch.channelType 1] ∧
    (∃ a ∈ (processForwardOne env req).2,
      a.actionType = ChannelActionType.forwardResp ∧
        a.reason = Reason.error ∧ a.messages = req.messages) ∧
    (∀ L, env.leaderIdOfChannel req.ch.channelId req.ch.channelType =
          Except.ok L → 0 < L →
        ∃ a ∈ (processForwardOne env req).2,
          a.actionType = ChannelActionType.leaderChange ∧
            a.leaderId = L) ∧
    (∀ a ∈ (processForwardOne env req).2,
      a.actionType = ChannelActionType.leaderChange →
        env.leaderIdOfChannel req.ch.channelId req.ch.channelType =
          Except.ok a.leaderId ∧ 0 < a.leaderId) := by
  cases henv : env.leaderIdOfChannel req.ch.channelId req.ch.channelType with
  | error e =>
    have heq : processForwardOne env req =
        ([ForwardEffect.resolveLeaderId req.ch.channelId
            req.ch.channelType 1],
          [{ uniqueNo := req.ch.uniqueNo
             actionType := ChannelActionType.forwardResp
             messages := req.messages
             reason := Reason.error }]) := by
      unfold processForwardOne
      rw [hoff, henv]
      simp
    rw [heq]
    refine ⟨rfl, by simp, ?_, ?_⟩
    · intro L hL
      simp at hL
    · intro a ha htype
      simp at ha
      rw [ha] at htype
      simp at htype
  | ok L =>
    by_cases hL : 0 < L
    · have heq : processForwardOne env req =
          ([ForwardEffect.resolveLeaderId req.ch.channelId
              req.ch.channelType 1],
            [{ uniqueNo := req.ch.uniqueNo
               actionType := ChannelActionType.leaderChange
               leaderId := L },
             { uniqueNo := req.ch.uniqueNo
               actionType := ChannelActionType.forwardResp
               messages := req.messages
               reason := Reason.error }]) := by
        unfold processForwardOne
        rw [hoff, henv]
        simp [hL]
      rw [heq]
      refine ⟨rfl, by simp, ?_, ?_⟩
      · intro L2 hL2 hpos
        injection hL2 with h
        subst h
        simp
      · intro a ha htype
        simp at ha
        rcases ha with ha | ha
        · rw [ha]
          exact ⟨rfl, hL⟩
        · rw [ha] at htype
          simp at htype
    · have heq : processForwardOne env req =
          ([ForwardEffect.resolveLeaderId req.ch.channelId
              req.ch.channelType 1],
            [{ uniqueNo := req.ch.uniqueNo
               actionType := ChannelActionType.forwardResp
               messages := req.messages
               reason := Reason.error }]) := by
        unfold processForwardOne
        rw [hoff, henv]
        simp [hL]
      rw [heq]
      refine ⟨rfl, by simp, ?_, ?_⟩
      · intro L2 hL2 hpos
        injection hL2 with h
        subst h
        exact absurd hpos hL
      · intro a ha htype
        simp at ha
        rw [ha] at htype
        simp at htype

/-- **C8** (witness): with the leader offline and re-resolution yielding
node 4, a `LeaderChange` action carrying 4 is stepped. -/
theorem C8_witness :
    fwdEnvOffOk.nodeIsOnline fwdReq0.leaderId = false ∧
    ∃ a ∈ (processForwardOne fwdEnvOffOk fwdReq0).2,
      a.actionType = ChannelActionType.leaderChange ∧ a.leaderId = 4 :=
  ⟨rfl,
    (C8_forward_offline fwdEnvOffOk fwdReq0 rfl).2.2.1 4 rfl (by decide)⟩

/-! ### Empty message lists at the stage workers: claim C10 -/

theorem applyResults_nil (results : List AppendResult) :
    applyResults [] results = [] := by
  induction results with
  | nil => rfl
  | cons r rest ih => simpa [applyResults, applyResult] using ih

/-- **C10**: the permission, storage, sendack and deliver workers read the
last element of a request's message list without a guard: on any request
whose message list is empty each of them aborts with an out-of-range index
(modelled as `none`), whatever the rest of the request and environment — a
non-empty message list is an undocumented precondition of these workers. -/
theorem C10_empty_messages_abort (opts : SOptions)
    (systemUID : String → Bool) (store : Store) (senv : StorageEnv)
    (now : Int) (fromUid : String) (ch : ServerChannel)
    (channelId channelKey tagKey : String) (channelType : Nat) :
    processPermission opts systemUID store
        { fromUid := fromUid, ch := ch, messages := [] } = none ∧
    processStorage senv now [{ ch := ch, messages := [] }] = none ∧
    processSendack opts [{ ch := ch, messages := [] }] = none ∧
    processDeliver [{ ch := ch, channelId := channelId
                      channelType := channelType, channelKey := channelKey
                      tagKey := tagKey, messages := [] }] = none := by
  refine ⟨?_, ?_, ?_, ?_⟩
  · unfold processPermission
    dsimp only
    split <;> rfl
  · unfold processStorage processStorageOne
    dsimp only
    rw [applyResults_nil]
    rfl
  · rfl
  · rfl

end WuKongIM
